import Mathlib

/-!
A verification development for the `zvukiStats` application: a shallow
embedding of its ingestion pipeline (`fetcher.py`, `__main__.py`), its
aggregation query layer (`db_manager.py`), its lookup query layer
(`table.py`) and its stats-panel query handler (`info_panel.py`),
together with theorems about the embedded definitions.

Conventions of the embedding:
* the Mongo collection is a `List Doc` (documents in natural store order);
* async calls are modelled as sequential function calls (there is no
  shared mutable state across the awaited operations that the theorems
  below depend on);
* Python exceptions are explicit: a raised exception is an `Except`
  error value or a recorded error field, `sys.exit c` is an exit-code
  field set to `c`;
* Python `round` (round-half-to-even on the exact quotient) is `pyRound`
  on `ℚ`; the one place it is applied in the claims (2500/1000) is exact
  in binary floating point, so `ℚ` is faithful there.
-/

namespace ZvukiStats

/-- A contributor subdocument (`main_author` / `main_actor` in the JSON):
a display name and a URI. -/
structure Contributor where
  cover_name : String
  uri : String
deriving DecidableEq, Repr

/-- A stored catalog document, with the fields the queries project. -/
structure Doc where
  name : String
  uri : String
  main_author : Contributor
  main_actor : Contributor
  global_rating : ℚ
  reviews_count : ℕ
deriving DecidableEq, Repr

/-- Python's built-in `round` applied to the exact quotient `num / den`
of two naturals: round half to even.  (`count / self.chunk_size` in the
source is float division; on the quotients the claims exercise the float
value is exact, so the exact-quotient rounding is faithful.) -/
def pyRound (num den : ℕ) : ℕ :=
  let q := num / den
  let r := num % den
  if 2 * r < den then q
  else if den < 2 * r then q + 1
  else if q % 2 = 0 then q else q + 1

/-- Outcome of the verification request in `Fetcher.get_total_pages`:
either the JSON `count` field was read, or some exception was raised
while issuing the request / decoding the body. -/
inductive VerifyOutcome where
  | ok (count : ℕ)
  | err
deriving DecidableEq, Repr

/-- `Fetcher.get_total_pages`: on success `round(count / chunk_size) + 1`;
on any exception it logs and calls `sys.exit(1)`, modelled as `.error 1`
(the exit code). -/
def get_total_pages (v : VerifyOutcome) (chunk_size : ℕ) : Except ℕ ℕ :=
  match v with
  | .ok count => .ok (pyRound count chunk_size + 1)
  | .err => .error 1

/-- Result of `Fetcher.create_tasks`: the page indices for which a task
was created, and the exit code if the run aborted (`sys.exit`). -/
structure CreateResult where
  tasks_created : List ℕ
  exit_code : Option ℕ
deriving DecidableEq, Repr

/-- `Fetcher.create_tasks`: read the total page count, then create one
task per page number in `range(1, count)`.  If `get_total_pages` exited,
the `SystemExit` propagates: no task is created and the exit code is
reported. -/
def create_tasks (v : VerifyOutcome) (chunk_size : ℕ) : CreateResult :=
  match get_total_pages v chunk_size with
  | .error c => { tasks_created := [], exit_code := some c }
  | .ok total => { tasks_created := List.range' 1 (total - 1), exit_code := none }

/-- A log record emitted through `logger` (or the rich console). -/
inductive LogEvent where
  | info (msg : String)
  | error (msg : String)
deriving DecidableEq, Repr

/-- The exception classes distinguished by the `except` clauses of
`Fetcher.fetch_and_insert`: `aiohttp.InvalidURL`, `aiohttp.ClientError`,
and any other `Exception`. -/
inductive PyExc where
  | invalidURL (msg : String)
  | clientError (msg : String)
  | other (msg : String)
deriving DecidableEq, Repr

/-- What the environment does for one page request inside the `try`
block of `fetch_and_insert`: either the GET + JSON decode succeed and
yield the page's `results` items, or one of the three exception kinds
is raised. -/
inductive FetchOutcome where
  | success (items : List Doc)
  | invalidURL (msg : String)
  | clientError (msg : String)
  | otherError (msg : String)
deriving DecidableEq, Repr

/-- `Fetcher.url_template.format(limit, page)`. -/
def url_template (limit page : ℕ) : String :=
  "https://zvukislov.ru/api/audiobooks/?limit=" ++ toString limit
    ++ "&page=" ++ toString page

/-- `DBManager.insert_docs`: one `insert_many` call appending the
documents to the collection, plus its info log line. -/
def insert_docs (store : List Doc) (documents : List Doc) :
    List Doc × LogEvent :=
  (store ++ documents,
   .info ("Добавлено " ++ toString documents.length ++ " документов"))

/-- Result of one `fetch_and_insert` task: the store after the task,
how many times `insert_docs` (BulkInsert) was called, and the log lines
emitted. -/
structure FetchResult where
  final : List Doc
  insert_calls : ℕ
  logs : List LogEvent
deriving DecidableEq, Repr

/-- The `try` block of `Fetcher.fetch_and_insert`: insert the page's
items and log, or raise one of the three exception kinds. -/
def fetch_body (store : List Doc) (url : String) (o : FetchOutcome) :
    Except PyExc FetchResult :=
  match o with
  | .success items =>
      let r := insert_docs store items
      .ok { final := r.1, insert_calls := 1,
            logs := [r.2, .info ("Обработан URL `" ++ url ++ "`")] }
  | .invalidURL m => .error (.invalidURL m)
  | .clientError m => .error (.clientError m)
  | .otherError m => .error (.other m)

/-- `Fetcher.fetch_and_insert`: run the `try` block; each of the three
`except` clauses absorbs its exception kind into an error log line and
returns normally (the function is total: no exception escapes). -/
def fetch_and_insert (store : List Doc) (url : String) (o : FetchOutcome) :
    FetchResult :=
  match fetch_body store url o with
  | .ok r => r
  | .error (.invalidURL e) =>
      { final := store, insert_calls := 0,
        logs := [.error ("Не удалось получить данные по URL `" ++ url
          ++ "`: " ++ e)] }
  | .error (.clientError e) =>
      { final := store, insert_calls := 0,
        logs := [.error ("При обработке URL `" ++ url
          ++ "` возникла проблема с Интернет-соединением: " ++ e ++ " ")] }
  | .error (.other e) =>
      { final := store, insert_calls := 0,
        logs := [.error ("Непредвиденная ошибка при обработке URL `"
          ++ url ++ "`: " ++ e)] }

/-- Result of running the whole task list (`asyncio.gather`). -/
structure RunResult where
  final : List Doc
  insert_calls : ℕ
  logs : List LogEvent
  fetch_attempts : List String
deriving DecidableEq, Repr

/-- Running the task list of `Fetcher.execute_tasks`.  `gather` resolves
the tasks concurrently; the model runs them in page order — the store
multiset, the insert-call count and the per-task logs do not depend on
completion order, which is all the theorems below use.  `fetches` says
what the network does for each page number. -/
def run_tasks (chunk : ℕ) (fetches : ℕ → FetchOutcome) (store : List Doc) :
    List ℕ → RunResult
  | [] => { final := store, insert_calls := 0, logs := [], fetch_attempts := [] }
  | p :: ps =>
      let url := url_template chunk p
      let r := fetch_and_insert store url (fetches p)
      let rest := run_tasks chunk fetches r.final ps
      { final := rest.final,
        insert_calls := r.insert_calls + rest.insert_calls,
        logs := r.logs ++ rest.logs,
        fetch_attempts := url :: rest.fetch_attempts }

/-- `DBManager.is_empty_collection`: `estimated_document_count() == 0`. -/
def is_empty_collection (store : List Doc) : Bool := store.length == 0

/-- `NON_EMPTY_COL_ERROR_MSG` from `__main__.py`. -/
def NON_EMPTY_COL_ERROR_MSG : String :=
  "[red bold]Внимание![/red bold]\nВы пытаетесь загрузить данные "
    ++ "в непустую коллекцию.\nДля повторной загрузки данных воспользуйтесь\n"
    ++ "опцией [green bold]`--drop_collection`[/green bold] "
    ++ "и затем снова [green bold]`--load`[/green bold]"

/-- Outcome of the `--load` branch of `main`. -/
structure LoadRun where
  console_logs : List String
  exit_code : Option ℕ
  insert_calls : ℕ
  final : List Doc
deriving DecidableEq, Repr

/-- The `--load` branch of `main` in `__main__.py`: if the collection is
non-empty, log the precondition message and `sys.exit(1)` without
touching the fetcher; otherwise `fetcher.execute_tasks()` =
`create_tasks` + run them (a `sys.exit` raised inside `get_total_pages`
propagates out as the run's exit code).  The timing log line printed
after a successful run is presentation and is elided. -/
def main_load (store : List Doc) (v : VerifyOutcome) (chunk : ℕ)
    (fetches : ℕ → FetchOutcome) : LoadRun :=
  if is_empty_collection store then
    match create_tasks v chunk with
    | { tasks_created := pages, exit_code := none } =>
        let r := run_tasks chunk fetches store pages
        { console_logs := [], exit_code := none,
          insert_calls := r.insert_calls, final := r.final }
    | { tasks_created := _, exit_code := some c } =>
        { console_logs := [], exit_code := some c,
          insert_calls := 0, final := store }
  else
    { console_logs := [NON_EMPTY_COL_ERROR_MSG], exit_code := some 1,
      insert_calls := 0, final := store }

/-! ### Aggregation query layer (`db_manager.py`, panel queries) -/

/-- `{'$sort': SON([(key, -1)])}`: the descending order induced by a
sort key. -/
def keyDesc {α β : Type} [LinearOrder β] (key : α → β) (a b : α) : Prop :=
  key b ≤ key a

instance {α β : Type} [LinearOrder β] (key : α → β) :
    DecidableRel (keyDesc key) :=
  fun a b => inferInstanceAs (Decidable (key b ≤ key a))

instance {α β : Type} [LinearOrder β] (key : α → β) :
    IsTotal α (keyDesc key) :=
  ⟨fun a b => le_total (key b) (key a)⟩

instance {α β : Type} [LinearOrder β] (key : α → β) :
    IsTrans α (keyDesc key) :=
  ⟨fun _ _ _ h1 h2 => le_trans h2 h1⟩

/-- The distinct values of a `$group` key over the collection (Mongo
leaves the group order unspecified; the model picks `dedup` order). -/
def group_keys (key : Doc → String) (docs : List Doc) : List String :=
  (docs.map key).dedup

/-- The documents of one group, in natural store order. -/
def group_docs (key : Doc → String) (docs : List Doc) (k : String) :
    List Doc :=
  docs.filter (fun d => key d == k)

/-- `{'$first': ...}` over a group (empty groups never arise). -/
def first_of (f : Doc → String) : List Doc → String
  | [] => ""
  | d :: _ => f d

/-- `{'$avg': ...}` over a group. -/
def listAvg (l : List ℚ) : ℚ := l.sum / (l.length : ℚ)

/-- One output document of the `$group` stage of
`find_most_prolific_author`. -/
structure AuthorGroup where
  _id : String
  num_books : ℕ
  uri : String
deriving DecidableEq, Repr

/-- The `$group` stage of `find_most_prolific_author`: group by
`main_author.cover_name`, counting books and taking the first URI. -/
def group_by_author (docs : List Doc) : List AuthorGroup :=
  (group_keys (fun d => d.main_author.cover_name) docs).map (fun k =>
    let ds := group_docs (fun d => d.main_author.cover_name) docs k
    { _id := k, num_books := ds.length,
      uri := first_of (fun d => d.main_author.uri) ds })

/-- The pipeline of `DBManager.find_most_prolific_author` after the
`$sort` stage (descending by `num_books`). -/
def most_prolific_author_sorted (docs : List Doc) : List AuthorGroup :=
  List.insertionSort (keyDesc AuthorGroup.num_books) (group_by_author docs)

/-- `DBManager.find_most_prolific_author`: group, sort descending by
`num_books`, `$skip: 1`, `$limit: 1`. -/
def find_most_prolific_author (docs : List Doc) : List AuthorGroup :=
  ((most_prolific_author_sorted docs).drop 1).take 1

/-- One output document of the `$group` stage of
`find_most_prolific_narrator`. -/
structure NarratorGroup where
  _id : String
  books_narrated : ℕ
  uri : String
deriving DecidableEq, Repr

/-- The `$group` stage of `find_most_prolific_narrator`: group by
`main_actor.cover_name`. -/
def group_by_narrator (docs : List Doc) : List NarratorGroup :=
  (group_keys (fun d => d.main_actor.cover_name) docs).map (fun k =>
    let ds := group_docs (fun d => d.main_actor.cover_name) docs k
    { _id := k, books_narrated := ds.length,
      uri := first_of (fun d => d.main_actor.uri) ds })

/-- The pipeline of `DBManager.find_most_prolific_narrator` after the
`$sort` stage (descending by `books_narrated`). -/
def most_prolific_narrator_sorted (docs : List Doc) : List NarratorGroup :=
  List.insertionSort (keyDesc NarratorGroup.books_narrated)
    (group_by_narrator docs)

/-- `DBManager.find_most_prolific_narrator`: group, sort descending by
`books_narrated`, `$skip: 1`, `$limit: 1`. -/
def find_most_prolific_narrator (docs : List Doc) : List NarratorGroup :=
  ((most_prolific_narrator_sorted docs).drop 1).take 1

/-- One output document of the `$group` stage of
`find_highest_AVG_rated_author`. -/
structure AvgRatedGroup where
  _id : String
  sum_books : ℕ
  avg_rating : ℚ
  uri : String
deriving DecidableEq, Repr

/-- The `$group` stage of `find_highest_AVG_rated_author`. -/
def group_by_avg_rated (docs : List Doc) : List AvgRatedGroup :=
  (group_keys (fun d => d.main_author.cover_name) docs).map (fun k =>
    let ds := group_docs (fun d => d.main_author.cover_name) docs k
    { _id := k, sum_books := ds.length,
      avg_rating := listAvg (ds.map (fun d => d.global_rating)),
      uri := first_of (fun d => d.main_author.uri) ds })

/-- `find_highest_AVG_rated_author` after `$match: sum_books ≥ 5` and
`$sort` (descending by `avg_rating`): note the floor is applied before
the sort, as in the pipeline. -/
def highest_avg_rated_sorted (docs : List Doc) : List AvgRatedGroup :=
  List.insertionSort (keyDesc AvgRatedGroup.avg_rating)
    ((group_by_avg_rated docs).filter (fun g => decide (5 ≤ g.sum_books)))

/-- `DBManager.find_highest_AVG_rated_author`: group, `$match`
`sum_books ≥ 5`, sort descending by `avg_rating`, `$limit: 1`. -/
def find_highest_AVG_rated_author (docs : List Doc) : List AvgRatedGroup :=
  (highest_avg_rated_sorted docs).take 1

/-- One output document of the `$group` stage of
`find_highest_AVG_reviewed_author`. -/
structure AvgReviewedGroup where
  _id : String
  sum_books : ℕ
  avg_reviews : ℚ
  uri : String
deriving DecidableEq, Repr

/-- The `$group` stage of `find_highest_AVG_reviewed_author`. -/
def group_by_avg_reviewed (docs : List Doc) : List AvgReviewedGroup :=
  (group_keys (fun d => d.main_author.cover_name) docs).map (fun k =>
    let ds := group_docs (fun d => d.main_author.cover_name) docs k
    { _id := k, sum_books := ds.length,
      avg_reviews := listAvg (ds.map (fun d => (d.reviews_count : ℚ))),
      uri := first_of (fun d => d.main_author.uri) ds })

/-- `find_highest_AVG_reviewed_author` after `$match: sum_books ≥ 5`
and `$sort` (descending by `avg_reviews`). -/
def highest_avg_reviewed_sorted (docs : List Doc) : List AvgReviewedGroup :=
  List.insertionSort (keyDesc AvgReviewedGroup.avg_reviews)
    ((group_by_avg_reviewed docs).filter (fun g => decide (5 ≤ g.sum_books)))

/-- `DBManager.find_highest_AVG_reviewed_author`: group, `$match`
`sum_books ≥ 5`, sort descending by `avg_reviews`, `$limit: 1`. -/
def find_highest_AVG_reviewed_author (docs : List Doc) :
    List AvgReviewedGroup :=
  (highest_avg_reviewed_sorted docs).take 1

/-- `DBManager.find_books_total`: `estimated_document_count()`. -/
def find_books_total (docs : List Doc) : ℕ := docs.length

/-- `DBManager.find_highest_rated_book`: find all, sort descending by
`global_rating`, `limit(1)` (field projection is presentation). -/
def find_highest_rated_book (docs : List Doc) : List Doc :=
  (List.insertionSort (keyDesc Doc.global_rating) docs).take 1

/-- `DBManager.find_most_reviewed_book`: find all, sort descending by
`reviews_count`, `limit(1)`. -/
def find_most_reviewed_book (docs : List Doc) : List Doc :=
  (List.insertionSort (keyDesc Doc.reviews_count) docs).take 1

/-! ### Lookup query layer (`table.py`) -/

/-- Each element of a list paired with the remaining elements in their
original order (the choice structure underlying
`itertools.permutations`). -/
def selections {α : Type} : List α → List (α × List α)
  | [] => []
  | x :: xs => (x, xs) :: (selections xs).map (fun p => (p.1, x :: p.2))

/-- `itertools.permutations(l, r)` (arguments flipped): every length-`r`
arrangement of distinct positions of `l`, in the generator's
enumeration order (lexicographic in the chosen index tuples). -/
def permutationsLen {α : Type} : ℕ → List α → List (List α)
  | 0, _ => [[]]
  | r + 1, l =>
      (selections l).flatMap (fun p =>
        (permutationsLen r p.2).map (fun t => p.1 :: t))

/-- The store as the lookup layer sees it: `DBManager.count_docs`
(case-insensitive regex count on a field), abstracted as an oracle from
field and pattern to the match count — the lookup control flow depends
only on this count. -/
structure LookupStore where
  count_docs : String → String → ℕ

/-- What `get_instance_queryset` produces: the full search issued with
a chosen pattern (plus the display header), the empty marker with the
display header, or a `SystemExit` raised by `sys.exit(msg)`. -/
inductive ResolveResult where
  | found (field pattern header : String)
  | empty (marker header : String)
  | exited (msg : String)
deriving DecidableEq, Repr

/-- The `sys.exit` message for over-long queries in `table.py`. -/
def LONG_QUERY_MSG : String :=
  "Слишком длинный запрос. Попробуйте сократить запрос "
    ++ "или выделить ключевые слова."

/-- The empty-result marker string of `table.py`. -/
def EMPTY_QS_MARKER : String := "По запросу {} ничего не найдено!"

/-- The optional middle-name/patronymic regex fragment appended for
two-word author queries. -/
def PATRONYMIC_FRAGMENT : String := "[а-яa-z]* ?"

/-- The probe loop of `get_instance_queryset`: walk the permutations in
order, `count_docs` each space-joined pattern, return the first pattern
whose count is positive. -/
def first_matching (store : LookupStore) (field : String) :
    List (List String) → Option String
  | [] => none
  | p :: ps =>
      let pattern := String.intercalate " " p
      if 0 < store.count_docs field pattern then some pattern
      else first_matching store field ps

/-- The permutation sequence `get_instance_queryset` probes:
`itertools.permutations(args, len_args)` where `len_args` is the
original word count (computed before the author fragment is appended)
and the pool is the possibly extended word list. -/
def resolve_permutations (field : String) (args : List String) :
    List (List String) :=
  permutationsLen args.length
    (if field == "author" && args.length == 2
     then args ++ [PATRONYMIC_FRAGMENT] else args)

/-- `get_instance_queryset` from `table.py`.  `query_string` and
`len_args` are computed before the author fragment is appended, and the
permutations are drawn with `r = len_args` from the possibly extended
word list, exactly as `itertools.permutations(args, len_args)` does. -/
def get_instance_queryset (store : LookupStore) (field : String)
    (args : List String) : ResolveResult :=
  let query_string := String.intercalate " " args
  if 9 < args.length then .exited LONG_QUERY_MSG
  else
    match first_matching store field (resolve_permutations field args) with
    | some pattern => .found field pattern query_string
    | none => .empty EMPTY_QS_MARKER query_string

/-! ### Stats-panel query handler (`info_panel.py`) -/

/-- A value collected into `PanelQueryHandler.results`: the numeric
total, or one record from one of the six coroutine queries. -/
inductive PanelVal where
  | num (n : ℕ)
  | doc (d : Doc)
  | author (g : AuthorGroup)
  | narrator (g : NarratorGroup)
  | avgRated (g : AvgRatedGroup)
  | avgReviewed (g : AvgReviewedGroup)
deriving DecidableEq, Repr

/-- `DBManager.panel_coroutine_queries`: the six cursor-returning
queries, each modelled by the list its cursor yields, wrapped into
`PanelVal`. -/
def panel_coroutine_queries (docs : List Doc) : List (List PanelVal) :=
  [(find_highest_rated_book docs).map .doc,
   (find_most_reviewed_book docs).map .doc,
   (find_most_prolific_author docs).map .author,
   (find_most_prolific_narrator docs).map .narrator,
   (find_highest_AVG_rated_author docs).map .avgRated,
   (find_highest_AVG_reviewed_author docs).map .avgReviewed]

/-- A Python error surfacing from the panel handler. -/
inductive PanelErr where
  | attributeError (name : String)
deriving DecidableEq, Repr

/-- Python attribute lookup on a `PanelQueryHandler` instance for a
one-coroutine-query method.  The class defines
`_await_coroutine_query` (which collects `cor.to_list(length=1)` into
the results); no attribute named `await_coroutine_query` exists. -/
def getattr_coroutine_method (name : String) :
    Option (List PanelVal → List PanelVal) :=
  if name = "_await_coroutine_query" then some (fun q => q.take 1)
  else none

/-- The state of a panel-handler run: the accumulated `results` list
and the error that aborted it, if any. -/
structure PanelRun where
  results : List PanelVal
  error : Option PanelErr
deriving DecidableEq, Repr

/-- `PanelQueryHandler._await_all_coroutine_queries`: for each query the
loop body evaluates `self.await_coroutine_query(query)`; the attribute
lookup happens at each iteration and raises `AttributeError` when the
name is not defined. -/
def await_all_coroutine_queries (queries : List (List PanelVal))
    (results : List PanelVal) : PanelRun :=
  match queries with
  | [] => { results := results, error := none }
  | q :: rest =>
      match getattr_coroutine_method "await_coroutine_query" with
      | none => { results := results,
                  error := some (.attributeError "await_coroutine_query") }
      | some m => await_all_coroutine_queries rest (results ++ m q)

/-- `PanelQueryHandler.await_all_queries`: run the numeric queries
(`panel_numeric_queries = [find_books_total]`, appending one number),
then the coroutine queries. -/
def await_all_queries (docs : List Doc) : PanelRun :=
  await_all_coroutine_queries (panel_coroutine_queries docs)
    [PanelVal.num (find_books_total docs)]

/-! ### Sample data for concrete instantiations -/

/-- A document with the fields the queries look at filled in. -/
def mkDoc (author book : String) (rating : ℚ) (reviews : ℕ) : Doc :=
  { name := book, uri := "/" ++ book,
    main_author := ⟨author, "/" ++ author⟩,
    main_actor := ⟨"Чтец", "/narr"⟩,
    global_rating := rating, reviews_count := reviews }

/-- Two books by author `A`, one by author `B`. -/
def sampleProlific : List Doc :=
  [mkDoc "A" "b1" 3 1, mkDoc "A" "b2" 4 2, mkDoc "B" "b3" 5 9]

/-- Author `A` with five 3-rated, 10-review books; author `B` with one
5-rated, 100-review book (below the 5-sample floor). -/
def sampleAvg : List Doc :=
  [mkDoc "A" "a1" 3 10, mkDoc "A" "a2" 3 10, mkDoc "A" "a3" 3 10,
   mkDoc "A" "a4" 3 10, mkDoc "A" "a5" 3 10, mkDoc "B" "b1" 5 100]

end ZvukiStats

namespace ZvukiStats

/-! ### Theorems -/

/-- C1: for every store state with document count `> 0`, the `--load`
path reports the precondition-violation message, exits with the
non-zero code 1, never calls BulkInsert (`insert_docs`), and leaves the
store contents unchanged — whatever the network and verification
request would have done. -/
theorem load_refuses_nonempty_store (store : List Doc) (v : VerifyOutcome)
    (chunk : ℕ) (fetches : ℕ → FetchOutcome) (h : 0 < store.length) :
    main_load store v chunk fetches =
      { console_logs := [NON_EMPTY_COL_ERROR_MSG], exit_code := some 1,
        insert_calls := 0, final := store } := by
  have hne : store.length ≠ 0 := Nat.pos_iff_ne_zero.mp h
  simp [main_load, is_empty_collection, hne]

/-- Witness for C1 at a one-document store. -/
theorem load_refuses_nonempty_store_w :
    main_load [mkDoc "A" "b" 3 1] .err 1000 (fun _ => .otherError "e") =
      { console_logs := [NON_EMPTY_COL_ERROR_MSG], exit_code := some 1,
        insert_calls := 0, final := [mkDoc "A" "b" 3 1] } :=
  load_refuses_nonempty_store [mkDoc "A" "b" 3 1] .err 1000
    (fun _ => .otherError "e") (by decide)

/-- C2: with verification count 2500 and page size 1000, the
coordinator computes `round(2500/1000) = 2` under Python's
round-half-to-even, hence `totalPages = 3`, and creates exactly the two
ingestion tasks for page indices 1 and 2 (the half-open interval
`[1, 3)`). -/
theorem scenario_count_2500_two_tasks :
    pyRound 2500 1000 = 2
    ∧ get_total_pages (.ok 2500) 1000 = .ok 3
    ∧ create_tasks (.ok 2500) 1000 =
        { tasks_created := [1, 2], exit_code := none }
    ∧ (create_tasks (.ok 2500) 1000).tasks_created.length = 2 :=
  ⟨by decide, rfl, by decide, by decide⟩

/-- C4: if the verification request fails with any exception, the run
aborts with exit code 1 before any ingestion task is created
(`tasks_created = []`), and — when the load path got that far at all
(empty collection) — the whole `--load` run ends with exit code 1, zero
BulkInsert calls and an unchanged store. -/
theorem verification_failure_aborts_before_tasks (store : List Doc)
    (chunk : ℕ) (fetches : ℕ → FetchOutcome) :
    create_tasks .err chunk = { tasks_created := [], exit_code := some 1 }
    ∧ (is_empty_collection store = true →
        main_load store .err chunk fetches =
          { console_logs := [], exit_code := some 1,
            insert_calls := 0, final := store }) := by
  refine ⟨rfl, fun h => ?_⟩
  simp [main_load, h, create_tasks, get_total_pages]

/-- Witness for C4 at the empty store. -/
theorem verification_failure_aborts_before_tasks_w :
    main_load [] .err 500 (fun _ => .success []) =
      { console_logs := [], exit_code := some 1,
        insert_calls := 0, final := [] } :=
  (verification_failure_aborts_before_tasks [] 500
    (fun _ => .success [])).2 (by decide)

/-- C10: for every store state, `await_all_queries` hits the
nonexistent attribute `await_coroutine_query` (the defined method is
`_await_coroutine_query`), so it raises `AttributeError` at the first
coroutine query: the results list holds exactly the single numeric
total-count result and none of the six coroutine-query results. -/
theorem await_all_queries_raises_attribute_error (docs : List Doc) :
    await_all_queries docs =
      { results := [.num (find_books_total docs)],
        error := some (.attributeError "await_coroutine_query") }
    ∧ getattr_coroutine_method "await_coroutine_query" = none
    ∧ (getattr_coroutine_method "_await_coroutine_query").isSome = true := by
  refine ⟨?_, rfl, rfl⟩
  simp [await_all_queries, panel_coroutine_queries,
    await_all_coroutine_queries, getattr_coroutine_method]

/-- C9 counterexample: on a ten-word query the lookup does not return a
no-results value — it raises `SystemExit` (via `sys.exit`) carrying the
user-error message, which propagates past the lookup layer. -/
theorem long_query_counterexample :
    get_instance_queryset ⟨fun _ _ => 1⟩ "book"
        ["a", "b", "c", "d", "e", "f", "g", "h", "i", "j"]
      = .exited LONG_QUERY_MSG
    ∧ ∀ marker header,
        get_instance_queryset ⟨fun _ _ => 1⟩ "book"
            ["a", "b", "c", "d", "e", "f", "g", "h", "i", "j"]
          ≠ .empty marker header := by
  refine ⟨by decide, fun marker header => ?_⟩
  intro h
  have : ResolveResult.exited LONG_QUERY_MSG = .empty marker header := by
    rw [← h]; decide
  simp at this

/-- C9 amended: a query of more than 9 words is rejected with the
user-error message via `sys.exit` — the lookup issues no store query
and returns no results, but the rejection is a `SystemExit` that
propagates past the lookup layer (terminating the caller) rather than
a plain message return. -/
theorem long_query_exits (store : LookupStore) (field : String)
    (args : List String) (h : 9 < args.length) :
    get_instance_queryset store field args = .exited LONG_QUERY_MSG := by
  simp [get_instance_queryset, h]

/-- Witness for the amended C9 at a concrete ten-word query. -/
theorem long_query_exits_w :
    get_instance_queryset ⟨fun _ _ => 0⟩ "author"
        ["q", "w", "e", "r", "t", "y", "u", "i", "o", "p"]
      = .exited LONG_QUERY_MSG :=
  long_query_exits ⟨fun _ _ => 0⟩ "author"
    ["q", "w", "e", "r", "t", "y", "u", "i", "o", "p"] (by decide)

/-- C3: each of the three exception kinds a page task can hit is fully
absorbed inside `fetch_and_insert`: the task returns normally (no
exception reaches the coordinator), contributes zero items (the store
is unchanged and `insert_docs` is never called), and emits exactly one
error log line; and a run performs exactly one fetch per created task
(no retries). -/
theorem per_task_failures_absorbed (store : List Doc) (url e : String) :
    fetch_and_insert store url (.invalidURL e) =
      { final := store, insert_calls := 0,
        logs := [.error ("Не удалось получить данные по URL `" ++ url
          ++ "`: " ++ e)] }
    ∧ fetch_and_insert store url (.clientError e) =
      { final := store, insert_calls := 0,
        logs := [.error ("При обработке URL `" ++ url
          ++ "` возникла проблема с Интернет-соединением: " ++ e ++ " ")] }
    ∧ fetch_and_insert store url (.otherError e) =
      { final := store, insert_calls := 0,
        logs := [.error ("Непредвиденная ошибка при обработке URL `"
          ++ url ++ "`: " ++ e)] }
    ∧ ∀ (chunk : ℕ) (fetches : ℕ → FetchOutcome) (pages : List ℕ)
        (s : List Doc),
        (run_tasks chunk fetches s pages).fetch_attempts =
          pages.map (url_template chunk) := by
  refine ⟨rfl, rfl, rfl, ?_⟩
  intro chunk fetches pages
  induction pages with
  | nil => intro s; rfl
  | cons p ps ih => intro s; simp [run_tasks, ih]

/-- If no probed pattern matches, the probe loop yields nothing. -/
theorem first_matching_eq_none (store : LookupStore) (field : String)
    (ps : List (List String))
    (h : ∀ p ∈ ps, store.count_docs field (String.intercalate " " p) = 0) :
    first_matching store field ps = none := by
  induction ps with
  | nil => rfl
  | cons q qs ih =>
      have h0 := h q (by simp)
      simp [first_matching, h0]
      exact ih (fun p hp => h p (by simp [hp]))

/-- The probe loop yields the first pattern with a positive count. -/
theorem first_matching_eq_some (store : LookupStore) (field : String)
    (ps : List (List String)) (i : ℕ) (hi : i < ps.length)
    (hpos : 0 < store.count_docs field
      (String.intercalate " " (ps.get ⟨i, hi⟩)))
    (h0 : ∀ p ∈ ps.take i,
      store.count_docs field (String.intercalate " " p) = 0) :
    first_matching store field ps =
      some (String.intercalate " " (ps.get ⟨i, hi⟩)) := by
  induction ps generalizing i with
  | nil => exact absurd hi (by simp)
  | cons q qs ih =>
      cases i with
      | zero =>
          simp only [List.get] at hpos
          simp [first_matching, hpos]
      | succ j =>
          have hq : store.count_docs field (String.intercalate " " q) = 0 :=
            h0 q (by simp [List.take_succ_cons])
          have hj : j < qs.length := Nat.lt_of_succ_lt_succ hi
          simp only [List.get] at hpos ⊢
          simp [first_matching, hq]
          exact ih j hj hpos
            (fun p hp => h0 p (by simp [List.take_succ_cons, hp]))

/-- C7: for every accepted (≤ 9 words) query, `get_instance_queryset`
probes the space-joined permutations in the generator's enumeration
order: if none has a positive `count_docs`, it returns the empty marker
with the original unpermuted query string; the first one with a
positive count is the exact pattern the full search is issued with,
again with the original query string as display header. -/
theorem resolve_probes_permutations_in_order (store : LookupStore)
    (field : String) (args : List String) (hacc : args.length ≤ 9) :
    ((∀ p ∈ resolve_permutations field args,
        store.count_docs field (String.intercalate " " p) = 0) →
      get_instance_queryset store field args =
        .empty EMPTY_QS_MARKER (String.intercalate " " args))
    ∧ ∀ i (hi : i < (resolve_permutations field args).length),
        0 < store.count_docs field
          (String.intercalate " " ((resolve_permutations field args).get ⟨i, hi⟩)) →
        (∀ p ∈ (resolve_permutations field args).take i,
          store.count_docs field (String.intercalate " " p) = 0) →
        get_instance_queryset store field args =
          .found field
            (String.intercalate " " ((resolve_permutations field args).get ⟨i, hi⟩))
            (String.intercalate " " args) := by
  have hnot : ¬ 9 < args.length := Nat.not_lt.mpr hacc
  constructor
  · intro h
    simp [get_instance_queryset, hnot,
      first_matching_eq_none store field _ h]
  · intro i hi hpos h0
    simp [get_instance_queryset, hnot,
      first_matching_eq_some store field _ i hi hpos h0]

/-- Witness for C7: a store matching only the pattern `"b a"`, probed
with the two-word book query `["a", "b"]`: the first permutation
`"a b"` counts 0, the second `"b a"` is positive and is searched. -/
theorem resolve_probes_permutations_in_order_w :
    get_instance_queryset ⟨fun _ p => if p = "b a" then 1 else 0⟩
        "book" ["a", "b"]
      = .found "book" "b a" "a b" :=
  (resolve_probes_permutations_in_order
      ⟨fun _ p => if p = "b a" then 1 else 0⟩ "book" ["a", "b"]
      (by decide)).2 1 (by decide) (by decide) (by decide)

/-- C8: because `len_args` is captured before the patronymic fragment
is appended, `itertools.permutations(args, len_args)` draws only
length-2 arrangements from the 3-element pool: the three-element
pattern `"Лев Толстой [а-яa-z]* ?"` is never probed, and against a
store in which only that pattern matches, the lookup returns the empty
marker instead of that permutation's search results. -/
theorem stale_len_args_never_probes_patronymic_pattern :
    get_instance_queryset
        ⟨fun _ p => if p = "Лев Толстой [а-яa-z]* ?" then 1 else 0⟩
        "author" ["Толстой", "Лев"]
      = .empty EMPTY_QS_MARKER "Толстой Лев"
    ∧ "Лев Толстой [а-яa-z]* ?" ∉
        (resolve_permutations "author" ["Толстой", "Лев"]).map
          (String.intercalate " ")
    ∧ resolve_permutations "author" ["Толстой", "Лев"] =
        [["Толстой", "Лев"], ["Толстой", PATRONYMIC_FRAGMENT],
         ["Лев", "Толстой"], ["Лев", PATRONYMIC_FRAGMENT],
         [PATRONYMIC_FRAGMENT, "Толстой"], [PATRONYMIC_FRAGMENT, "Лев"]] := by
  refine ⟨by decide, by decide, by decide⟩

/-- In a list whose `f`-image has no duplicates, an element of
`(s.drop 1).take 1` (the second element) is never the head. -/
theorem ne_head_of_mem_drop_one_take_one {α β : Type} (f : α → β)
    (s : List α) (hnd : (s.map f).Nodup) (g : α)
    (hg : g ∈ (s.drop 1).take 1) (hne : s ≠ []) : g ≠ s.head hne := by
  cases s with
  | nil => exact absurd rfl hne
  | cons a s' =>
      cases s' with
      | nil => simp at hg
      | cons b t =>
          simp at hg
          subst hg
          intro hba
          rw [List.map_cons, List.nodup_cons] at hnd
          apply hnd.1
          rw [List.head] at hba
          rw [hba]
          simp

/-- The `$group` stage of the prolific-author pipeline emits pairwise
distinct keys. -/
theorem group_by_author_ids_nodup (docs : List Doc) :
    ((group_by_author docs).map AuthorGroup._id).Nodup := by
  have h : (group_by_author docs).map AuthorGroup._id =
      group_keys (fun d => d.main_author.cover_name) docs := by
    unfold group_by_author
    rw [List.map_map]
    exact List.map_id _
  rw [h]
  exact List.nodup_dedup _

/-- The `$group` stage of the prolific-narrator pipeline emits pairwise
distinct keys. -/
theorem group_by_narrator_ids_nodup (docs : List Doc) :
    ((group_by_narrator docs).map NarratorGroup._id).Nodup := by
  have h : (group_by_narrator docs).map NarratorGroup._id =
      group_keys (fun d => d.main_actor.cover_name) docs := by
    unfold group_by_narrator
    rw [List.map_map]
    exact List.map_id _
  rw [h]
  exact List.nodup_dedup _

/-- C5: both most-prolific queries sort the contributor groups
descending by count and, through their fixed `$skip: 1` / `$limit: 1`
suffix, return exactly the second-ranked group: the sorted sequence is
a permutation of the groups, is sorted descending by the count key, the
result is its `drop 1 / take 1` slice, and the returned group is never
the first-ranked group. -/
theorem most_prolific_returns_second_ranked (docs : List Doc) :
    (most_prolific_author_sorted docs).Perm (group_by_author docs)
    ∧ List.Sorted (keyDesc AuthorGroup.num_books)
        (most_prolific_author_sorted docs)
    ∧ find_most_prolific_author docs =
        ((most_prolific_author_sorted docs).drop 1).take 1
    ∧ (∀ g ∈ find_most_prolific_author docs,
        ∀ hne : most_prolific_author_sorted docs ≠ [],
          g ≠ (most_prolific_author_sorted docs).head hne)
    ∧ (most_prolific_narrator_sorted docs).Perm (group_by_narrator docs)
    ∧ List.Sorted (keyDesc NarratorGroup.books_narrated)
        (most_prolific_narrator_sorted docs)
    ∧ find_most_prolific_narrator docs =
        ((most_prolific_narrator_sorted docs).drop 1).take 1
    ∧ (∀ g ∈ find_most_prolific_narrator docs,
        ∀ hne : most_prolific_narrator_sorted docs ≠ [],
          g ≠ (most_prolific_narrator_sorted docs).head hne) := by
  have hpa : (most_prolific_author_sorted docs).Perm (group_by_author docs) :=
    List.perm_insertionSort _ _
  have hpn : (most_prolific_narrator_sorted docs).Perm (group_by_narrator docs) :=
    List.perm_insertionSort _ _
  refine ⟨hpa, List.sorted_insertionSort _ _, rfl, ?_,
          hpn, List.sorted_insertionSort _ _, rfl, ?_⟩
  · have hnd : ((most_prolific_author_sorted docs).map AuthorGroup._id).Nodup :=
      (hpa.map AuthorGroup._id).nodup_iff.mpr (group_by_author_ids_nodup docs)
    exact fun g hg hne =>
      ne_head_of_mem_drop_one_take_one AuthorGroup._id _ hnd g hg hne
  · have hnd : ((most_prolific_narrator_sorted docs).map NarratorGroup._id).Nodup :=
      (hpn.map NarratorGroup._id).nodup_iff.mpr (group_by_narrator_ids_nodup docs)
    exact fun g hg hne =>
      ne_head_of_mem_drop_one_take_one NarratorGroup._id _ hnd g hg hne

/-- Witness for C5: with two books by author `A` and one by `B`, the
first-ranked group is `A` (count 2) but the query returns the `B`
group, which is distinct from the head of the sorted sequence. -/
theorem most_prolific_returns_second_ranked_w :
    find_most_prolific_author sampleProlific =
      [{ _id := "B", num_books := 1, uri := "/B" }]
    ∧ ({ _id := "B", num_books := 1, uri := "/B" } : AuthorGroup)
        ≠ (most_prolific_author_sorted sampleProlific).head (by decide) := by
  refine ⟨by decide, ?_⟩
  exact (most_prolific_returns_second_ranked sampleProlific).2.2.2.1 _
    (by decide) (by decide)

/-- The head of `take 1` of a descending-by-key sort of a filtered list
satisfies the filter, belongs to the original list, and its key is
maximal among the filtered elements. -/
theorem take_one_sorted_filter_max {α β : Type} [LinearOrder β]
    (key : α → β) (pred : α → Bool) (l : List α) (g : α)
    (hg : g ∈ (List.insertionSort (keyDesc key) (l.filter pred)).take 1) :
    pred g = true ∧ g ∈ l
      ∧ ∀ g' ∈ l, pred g' = true → key g' ≤ key g := by
  have hperm := List.perm_insertionSort (keyDesc key) (l.filter pred)
  have hsort := List.sorted_insertionSort (keyDesc key) (l.filter pred)
  cases hs : List.insertionSort (keyDesc key) (l.filter pred) with
  | nil => rw [hs] at hg; simp at hg
  | cons a rest =>
      rw [hs] at hg hperm hsort
      simp at hg
      subst hg
      have hmem : g ∈ l.filter pred := hperm.subset (List.mem_cons_self g rest)
      have hps := List.mem_filter.mp hmem
      refine ⟨hps.2, hps.1, ?_⟩
      intro g' hg' hp'
      have hg's : g' ∈ g :: rest :=
        hperm.symm.subset (List.mem_filter.mpr ⟨hg', hp'⟩)
      rcases List.mem_cons.mp hg's with h | h
      · exact le_of_eq (congrArg key h)
      · exact List.rel_of_sorted_cons hsort g' h

/-- C6: both highest-average queries apply the ≥ 5-sample floor before
ranking: every returned group has at least 5 underlying items, is a
real contributor group, and its average is maximal among the groups
meeting the floor — so a below-floor group is never returned even with
a strictly higher raw average. -/
theorem avg_queries_apply_sample_floor (docs : List Doc) :
    (∀ g ∈ find_highest_AVG_rated_author docs,
        5 ≤ g.sum_books ∧ g ∈ group_by_avg_rated docs
        ∧ ∀ g' ∈ group_by_avg_rated docs, 5 ≤ g'.sum_books →
            g'.avg_rating ≤ g.avg_rating)
    ∧ (∀ g ∈ find_highest_AVG_reviewed_author docs,
        5 ≤ g.sum_books ∧ g ∈ group_by_avg_reviewed docs
        ∧ ∀ g' ∈ group_by_avg_reviewed docs, 5 ≤ g'.sum_books →
            g'.avg_reviews ≤ g.avg_reviews) := by
  constructor
  · intro g hg
    have h := take_one_sorted_filter_max AvgRatedGroup.avg_rating
      (fun x => decide (5 ≤ x.sum_books)) (group_by_avg_rated docs) g hg
    exact ⟨of_decide_eq_true h.1, h.2.1,
      fun g' hg' h5 => h.2.2 g' hg' (decide_eq_true h5)⟩
  · intro g hg
    have h := take_one_sorted_filter_max AvgReviewedGroup.avg_reviews
      (fun x => decide (5 ≤ x.sum_books)) (group_by_avg_reviewed docs) g hg
    exact ⟨of_decide_eq_true h.1, h.2.1,
      fun g' hg' h5 => h.2.2 g' hg' (decide_eq_true h5)⟩

unseal Rat.add Rat.mul Rat.inv in
/-- Witness for C6: author `B` has one 5-rated book (raw average 5,
above `A`'s average 3), yet the query returns the `A` group, the only
one meeting the 5-sample floor. -/
theorem avg_queries_apply_sample_floor_w :
    find_highest_AVG_rated_author sampleAvg =
      [{ _id := "A", sum_books := 5, avg_rating := 3, uri := "/A" }]
    ∧ 5 ≤ AvgRatedGroup.sum_books
        { _id := "A", sum_books := 5, avg_rating := 3, uri := "/A" } := by
  refine ⟨by decide, ?_⟩
  exact ((avg_queries_apply_sample_floor sampleAvg).1 _ (by decide)).1

end ZvukiStats

